import Mathlib

/-!
Verification of `uptimed` (src/main.rs), a host metrics sampler: it reads
OS counters and gauges, computes deltas and rounded percentages, encodes
them as statsd gauge lines and sends them over UDP once per minute.

Shallow embedding notes:
- Each OS read (`fs::read_to_string`, `libc::statvfs`, socket calls) is an
  external input, modelled as an `Except` value carried by an `Env` record.
- A Rust panic / `.expect(...)` abort of the process is modelled as an
  `Except.error` result with the panic message.
- `u64` counters are `Nat`; the parse enforces the `2 ^ 64` bound, and the
  overflow-checked `u64` subtraction is `checkedSub` (Rust aborts on
  underflow of `new - baseline`).
- The float arithmetic (`f32`/`f64`) of the source is exact here: parsed
  decimals are kept as numerator/denominator pairs and every `.round()`
  becomes `roundHalfUp`, which is proved equal to Mathlib's `round` on the
  corresponding rational.  All values handled by the program are
  nonnegative, where `f64::round` (half away from zero) agrees with
  rounding half up.
- Printing (`println!`) is modelled as a returned list of log lines.
-/

/-! ## String primitives

Char-list implementations of the Rust `str` operations used by the source
(`split`, `trim`, `starts_with`, `str::parse`).  They are structural
recursions so that concrete runs reduce inside the kernel.
-/

/-- Rust `str::split(sep)` for a one-character separator: splitting the
empty string yields one empty piece, and every occurrence of `sep` starts
a new piece. -/
def splitOnC (sep : Char) : List Char → List (List Char)
  | [] => [[]]
  | c :: cs =>
    let r := splitOnC sep cs
    if c == sep then [] :: r else (c :: r.headD []) :: r.tail

/-- Rust `str::trim`: remove whitespace from both ends. -/
def trimC (l : List Char) : List Char :=
  ((l.dropWhile Char.isWhitespace).reverse.dropWhile Char.isWhitespace).reverse

/-- Rust `str::starts_with(pat)`: first argument is the string, second the
pattern. -/
def startsWithL : List Char → List Char → Bool
  | _, [] => true
  | [], _ :: _ => false
  | c :: cs, p :: ps => (c == p) && startsWithL cs ps

/-- Accumulator pass of decimal-digit parsing. -/
def digitsVal : List Char → Nat → Nat
  | [], acc => acc
  | c :: cs, acc => digitsVal cs (acc * 10 + (c.toNat - 48))

/-- Parse a nonempty all-digit string to a `Nat`; `none` on anything else. -/
def parseDigits (l : List Char) : Option Nat :=
  if l.isEmpty then none
  else if l.all Char.isDigit then some (digitsVal l 0) else none

/-- Rust `str::parse::<u64>()` on the digit strings produced by the kernel
counters: all digits and below `2 ^ 64`. -/
def parseU64C (l : List Char) : Option Nat :=
  match parseDigits l with
  | some n => if n < 2 ^ 64 then some n else none
  | none => none

/-- Rust `str::parse::<f32>() / ::<f64>()` on the plain nonnegative decimal
literals found in the proc files (`"1.00"`, `"1000"`).  The value is kept
exactly, as a pair `(numerator, denominator)` with denominator a power of
ten. -/
def parseDecC (l : List Char) : Option (Nat × Nat) :=
  match splitOnC '.' l with
  | [w] => (parseDigits w).map (fun n => (n, 1))
  | [w, f] =>
    match parseDigits w, parseDigits f with
    | some n, some m => some (n * 10 ^ f.length + m, 10 ^ f.length)
    | _, _ => none
  | _ => none

/-- Rounding of the nonnegative rational `n / d` to the nearest integer,
halves up — what `f64::round` does to the nonnegative values of this
program.  For `d = 0` (impossible in a run with sane inputs, where the
float code would give `inf`/`NaN`) `Nat` division returns `0`. -/
def roundHalfUp (n d : Nat) : Nat := (2 * n + d) / (2 * d)

/-! ## Data model -/

deriving instance DecidableEq for Except

/-- The two `libc::statvfs` fields the program reads. -/
structure Stat where
  f_bavail : Nat
  f_blocks : Nat
deriving DecidableEq

/-- One sampling tick's view of the OS metric sources.  `Except.error`
means the underlying read failed (`fs::read_to_string` returned `Err`, or
`statvfs` returned the nonzero code carried by the error). -/
structure Env where
  rx_raw : Except Unit String
  tx_raw : Except Unit String
  uptime_raw : Except Unit String
  meminfo_raw : Except Unit String
  loadavg_raw : Except Unit String
  cpuinfo_raw : Except Unit String
  statvfs_res : Except Int Stat
deriving DecidableEq

/-- The `SysInfo` struct of the source.  `nspace` is the source's
`namespace` field (a Lean keyword).  The rounded float metrics are the
integers they display as. -/
structure SysInfo where
  nspace : String
  destination : String
  interface : String
  filesystem : String
  hostname : String
  last_seen_net_rx : Nat
  last_seen_net_tx : Nat
  net_rx : Nat
  net_tx : Nat
  uptime : Nat
  avail_mem : Nat
  load : Nat
  disk_free : Nat
deriving DecidableEq

/-! ## Metric accessors (the static methods of `impl SysInfo`) -/

/-- Model of `SysInfo::get_hostname`: read `/proc/sys/kernel/hostname` (abort on
failure) and trim. -/
def hostnameM : Except Unit String → Except String String
  | .error _ => .error ("Unable to read hostname")
  | .ok c => .ok (String.mk (trimC c.data))

/-- Model of `SysInfo::net_stats`: read `/sys/class/net/<if>/statistics/<k>x_bytes`
(abort on read failure), trim, and parse as `u64` with `unwrap_or(0)` —
unparseable content silently becomes `0`. -/
def netStats : Except Unit String → Except String Nat
  | .error _ => .error ("Unable to read statistics from provided network interface")
  | .ok c => .ok ((parseU64C (trimC c.data)).getD 0)

/-- Model of `SysInfo::uptime`: read `/proc/uptime` (abort on read failure), take
the first space-separated token (defaulting to `"0.0"`), parse with
`unwrap_or(0f32)` — so unparseable content becomes `0` — and round. -/
def uptimeM : Except Unit String → Except String Nat
  | .error _ => .error ("Unable to read /proc/uptime")
  | .ok c =>
    let p := (parseDecC ((splitOnC ' ' (trimC c.data)).headD ("0.0".data))).getD (0, 1)
    .ok (roundHalfUp p.1 p.2)

/-- The per-line value extraction of `SysInfo::avail_mem`:
`split(":").last().trim().split(" ").next().parse()`.  `none` is the
`unwrap` panic on a failed parse. -/
def memLineVal (l : List Char) : Option (Nat × Nat) :=
  parseDecC ((splitOnC ' ' (trimC ((splitOnC ':' l).getLastD []))).headD [])

/-- The arithmetic of `SysInfo::avail_mem`: `(avail / total * 100.0).round()`
on the two parsed readings (each a `(numerator, denominator)` pair). -/
def availMemCalc (total avail : Nat × Nat) : Nat :=
  roundHalfUp (avail.1 * total.2 * 100) (avail.2 * total.1)

/-- Model of `SysInfo::avail_mem`: read `/proc/meminfo` (abort on read failure),
keep the lines starting with `MemTotal` or `MemAvailable`, parse each
(abort on parse failure), then `candidates[0]` is the total and
`candidates[1]` the available amount (abort — index out of bounds — when
fewer than two lines matched). -/
def availMemM : Except Unit String → Except String Nat
  | .error _ => .error ("Unable to read /proc/meminfo")
  | .ok c =>
    let cand := (splitOnC '\n' c.data).filter
      (fun l => startsWithL l ("MemTotal".data) || startsWithL l ("MemAvailable".data))
    match cand.mapM memLineVal with
    | none => .error ("called unwrap on an Err value while parsing /proc/meminfo")
    | some vals =>
      match vals with
      | total :: avail :: _ => .ok (availMemCalc total avail)
      | _ => .error ("index out of bounds in /proc/meminfo candidates")

/-- The arithmetic of `SysInfo::load`:
`(load_avg * 100f32 / cores).round()` with `load_avg` a parsed pair. -/
def loadCalc (la : Nat × Nat) (cores : Nat) : Nat :=
  roundHalfUp (la.1 * 100) (la.2 * cores)

/-- Model of `SysInfo::load`: read `/proc/loadavg` (abort on read failure), parse
its first token (abort on parse failure — a bare `unwrap`), then read
`/proc/cpuinfo` (abort on read failure), count the lines starting with
`processor`, and scale. -/
def loadM (loadRaw cpuRaw : Except Unit String) : Except String Nat :=
  match loadRaw with
  | .error _ => .error ("Unable to read /proc/loadavg")
  | .ok lc =>
    match parseDecC ((splitOnC ' ' (trimC lc.data)).headD []) with
    | none => .error ("called unwrap on an Err value while parsing /proc/loadavg")
    | some la =>
      match cpuRaw with
      | .error _ => .error ("Unable to read /proc/cpuinfo")
      | .ok cc =>
        let cores := ((splitOnC '\n' cc.data).filter
          (fun l => startsWithL l ("processor".data))).length
        .ok (loadCalc la cores)

/-- The arithmetic of `SysInfo::disk_free`:
`(f_bavail as f64 / f_blocks as f64 * 100f64).round()`. -/
def diskFreeCalc (st : Stat) : Nat := roundHalfUp (st.f_bavail * 100) st.f_blocks

/-- The diagnostic line `SysInfo::disk_free` prints when `statvfs` fails
(the code passes the call's return value to the `errno` slot). -/
def diskDiag (code : Int) : String :=
  "Cannot access filesystem stats, errno " ++ toString code

/-- Model of `SysInfo::disk_free`: on `statvfs` failure print a diagnostic and
return `0`; otherwise the rounded free percentage.  The second component
collects the printed lines. -/
def diskFreeM : Except Int Stat → Nat × List String
  | .error code => (0, [diskDiag code])
  | .ok st => (diskFreeCalc st, [])

/-- The overflow-checked `u64` subtraction Rust performs for
`new_net_rx - self.last_seen_net_rx`: the error is the abort on
underflow (no guard appears in the source). -/
def checkedSub (a b : Nat) : Except String Nat :=
  if b ≤ a then .ok (a - b) else .error ("attempt to subtract with overflow")

/-! ## The sampling, encoding and sending cycle -/

/-- Model of `SysInfo::refresh`: read both counters, compute the deltas, store the
new readings as baselines, then recompute uptime, available memory, load
and disk-free.  An `error` is a process abort; on success the second
component is the list of diagnostic lines printed (only the disk-free
path prints). -/
def refreshM (s : SysInfo) (env : Env) : Except String (SysInfo × List String) :=
  match netStats env.rx_raw with
  | .error e => .error e
  | .ok new_net_rx =>
    match netStats env.tx_raw with
    | .error e => .error e
    | .ok new_net_tx =>
      match checkedSub new_net_rx s.last_seen_net_rx with
      | .error e => .error e
      | .ok rx =>
        match checkedSub new_net_tx s.last_seen_net_tx with
        | .error e => .error e
        | .ok tx =>
          match uptimeM env.uptime_raw with
          | .error e => .error e
          | .ok up =>
            match availMemM env.meminfo_raw with
            | .error e => .error e
            | .ok am =>
              match loadM env.loadavg_raw env.cpuinfo_raw with
              | .error e => .error e
              | .ok ld =>
                let p := diskFreeM env.statvfs_res
                .ok ({ s with
                        net_rx := rx, net_tx := tx,
                        last_seen_net_rx := new_net_rx, last_seen_net_tx := new_net_tx,
                        uptime := up, avail_mem := am, load := ld,
                        disk_free := p.1 }, p.2)

/-- Model of `SysInfo::serialize`: the six statsd gauge lines, in source order. -/
def serialize (s : SysInfo) : String :=
  let pfx := s.nspace ++ "." ++ s.hostname
  pfx ++ ".net-rx:" ++ toString s.net_rx ++ "|g" ++ "\n" ++
    (pfx ++ ".net-tx:" ++ toString s.net_tx ++ "|g") ++ "\n" ++
    (pfx ++ ".uptime:" ++ toString s.uptime ++ "|g") ++ "\n" ++
    (pfx ++ ".availmem:" ++ toString s.avail_mem ++ "|g") ++ "\n" ++
    (pfx ++ ".diskfree:" ++ toString s.disk_free ++ "|g") ++ "\n" ++
    (pfx ++ ".load:" ++ toString s.load ++ "|g") ++ "\n"

/-- The fixed metric names, in the order `serialize` emits them. -/
def metricNames : List String :=
  ["net-rx", "net-tx", "uptime", "availmem", "diskfree", "load"]

/-- The displayed metric values of a snapshot, in emission order. -/
def metricValues (s : SysInfo) : List String :=
  [toString s.net_rx, toString s.net_tx, toString s.uptime,
   toString s.avail_mem, toString s.disk_free, toString s.load]

/-- One statsd gauge line: `<pfx>.<name>:<value>|g`. -/
def statsdLine (pfx name value : String) : String :=
  pfx ++ "." ++ name ++ ":" ++ value ++ "|g"

/-- Model of `SysInfo::send`: refresh, bind an ephemeral UDP socket (abort on
failure — the source message is "couldn't bind to address"), send the
serialized payload (abort on failure — source message "couldn't send
data").  On success: the refreshed snapshot, its log, and the payload
sent. -/
def sendCycle (s : SysInfo) (env : Env) (bindRes sendRes : Except Unit Unit) :
    Except String (SysInfo × List String × String) :=
  match refreshM s env with
  | .error e => .error e
  | .ok (s1, log) =>
    match bindRes with
    | .error _ => .error ("could not bind to address")
    | .ok _ =>
      match sendRes with
      | .error _ => .error ("could not send data")
      | .ok _ => .ok (s1, log, serialize s1)

/-! ## Startup and scheduler -/

/-- The string literal of `usage()` (Rust line-continuation backslashes
elide the newline and following indentation; the one line without a
backslash keeps both). -/
def usageText : String :=
  "Usage: uptimed statsd-server namespace filesystem network-interface \n\nStats are pulled from the /proc filesystem \nSee https://www.kernel.org/doc/html/latest/filesystems/proc.html \n\nThe following stats are emitted once per minute and sent to the StatsD host listed above\n\n- hostname  /proc/sys/kernel/hostname \n- net-rx    Bytes received in the last minute \n- net-tx    Bytes transmitted in the last minute \n- uptime    Seconds of uptime. Alert if not seen in the last 5 minutes \n- availmem  Percent of memory available alert if < 20 \n- diskfree  Percent of disk free alert if less than < 10 \n- load      Load average, scaled 100x (to get an int) and divided by the number\n            of cores. 100 is generally saturation. Alert if > 100 \n\n"

/-- What `usage()` writes to standard output (`println!` adds a final
newline). -/
def usageOutput : String := usageText ++ "\n"

/-- The configuration `main` extracts from `argv` when the count is
right. -/
structure Config where
  destination : String
  nspace : String
  filesystem : String
  interface : String
deriving DecidableEq

/-- The argument handling of `main`: with `argv.len() != 5` (program name
plus four parameters) it prints the usage text and exits with status 1 —
modelled as an error carrying the printed text and the exit code, reached
before any metric source is consulted (this function takes no `Env`).
Otherwise the four positional parameters are extracted. -/
def mainStartup (argv : List String) : Except (String × Nat) Config :=
  if h : argv.length = 5 then
    .ok { destination := argv.get ⟨1, by omega⟩
          nspace := argv.get ⟨2, by omega⟩
          filesystem := argv.get ⟨3, by omega⟩
          interface := argv.get ⟨4, by omega⟩ }
  else .error (usageOutput, 1)

/-- The two scheduler states of the main loop: performing
`info.send()` versus blocking in `thread::sleep`. -/
inductive Phase where
  | sampling : Phase
  | waiting : Phase
deriving DecidableEq

/-- The loop structure of `main`: after sampling comes waiting, after
waiting comes sampling; `loop` has no exit. -/
def nextPhase : Phase → Phase
  | .sampling => .waiting
  | .waiting => .sampling

/-- The wait after a sampling step: `Duration::from_secs(60)`, a constant
ignoring how long the sampling took. -/
def sleepSecs (_latency : Nat) : Nat := 60

set_option maxRecDepth 10000

/-! ## Concrete fixtures (used by witnesses and counterexamples) -/

/-- A snapshot whose stored baselines are rx = tx = 100. -/
def s100 : SysInfo :=
  { nspace := "ns", destination := "collector", interface := "eth0",
    filesystem := "/", hostname := "host",
    last_seen_net_rx := 100, last_seen_net_tx := 100,
    net_rx := 0, net_tx := 0, uptime := 0, avail_mem := 0, load := 0, disk_free := 0 }

/-- A fully healthy tick: counters read 150/160, one hour of uptime,
memory 200 of 1000 kB available, load 1.00 on 4 cores, 50 of 200 blocks
free. -/
def envGood : Env :=
  { rx_raw := .ok "150\n", tx_raw := .ok "160\n",
    uptime_raw := .ok "3600.00 7200.00\n",
    meminfo_raw := .ok "MemTotal:       1000 kB\nMemFree:         100 kB\nMemAvailable:    200 kB\n",
    loadavg_raw := .ok "1.00 0.50 0.25 1/100 12345\n",
    cpuinfo_raw := .ok "processor\t: 0\nmodel name\t: X\nprocessor\t: 1\nprocessor\t: 2\nprocessor\t: 3\n",
    statvfs_res := .ok { f_bavail := 50, f_blocks := 200 } }

/-- What `refreshM s100 envGood` produces. -/
def s100r : SysInfo :=
  { s100 with
    net_rx := 50
    net_tx := 60
    last_seen_net_rx := 150
    last_seen_net_tx := 160
    uptime := 3600
    avail_mem := 20
    load := 25
    disk_free := 25 }

/-! ## Helper lemmas -/

/-- The helper `roundHalfUp` computes Mathlib's round-half-up on the rational
`n / d`. -/
theorem roundHalfUp_eq (n d : Nat) (hd : 0 < d) :
    (roundHalfUp n d : ℤ) = round ((n : ℚ) / (d : ℚ)) := by
  rw [round_eq]
  have h2 : ((n : ℚ)) / d + 1 / 2 = ((2 * n + d : ℕ) : ℚ) / ((2 * d : ℕ) : ℚ) := by
    have hd0 : (d : ℚ) ≠ 0 := by positivity
    push_cast
    field_simp
    ring
  rw [h2, Rat.floor_natCast_div_natCast]
  simp [roundHalfUp]

/-- Inversion of a successful refresh: every fatal read succeeded, neither
counter decreased below its baseline, and the resulting snapshot is the
one assembled from those readings. -/
theorem refreshM_ok_inv (s : SysInfo) (env : Env) (s1 : SysInfo) (l1 : List String)
    (hok : refreshM s env = Except.ok (s1, l1)) :
    ∃ r t up am ld,
      netStats env.rx_raw = Except.ok r ∧
      netStats env.tx_raw = Except.ok t ∧
      s.last_seen_net_rx ≤ r ∧
      s.last_seen_net_tx ≤ t ∧
      uptimeM env.uptime_raw = Except.ok up ∧
      availMemM env.meminfo_raw = Except.ok am ∧
      loadM env.loadavg_raw env.cpuinfo_raw = Except.ok ld ∧
      s1 = { s with
              net_rx := r - s.last_seen_net_rx, net_tx := t - s.last_seen_net_tx,
              last_seen_net_rx := r, last_seen_net_tx := t,
              uptime := up, avail_mem := am, load := ld,
              disk_free := (diskFreeM env.statvfs_res).1 } ∧
      l1 = (diskFreeM env.statvfs_res).2 := by
  unfold refreshM at hok
  cases hr : netStats env.rx_raw with
  | error e => simp only [hr] at hok; exact Except.noConfusion hok
  | ok r =>
  simp only [hr] at hok
  cases ht : netStats env.tx_raw with
  | error e => simp only [ht] at hok; exact Except.noConfusion hok
  | ok t =>
  simp only [ht] at hok
  by_cases h1 : s.last_seen_net_rx ≤ r
  case neg => simp [checkedSub, h1] at hok
  simp only [checkedSub, h1, if_true, reduceIte] at hok
  by_cases h2 : s.last_seen_net_tx ≤ t
  case neg => simp [checkedSub, h2] at hok
  simp only [checkedSub, h2, if_true, reduceIte] at hok
  cases hu : uptimeM env.uptime_raw with
  | error e => simp only [hu] at hok; exact Except.noConfusion hok
  | ok up =>
  simp only [hu] at hok
  cases ha : availMemM env.meminfo_raw with
  | error e => simp only [ha] at hok; exact Except.noConfusion hok
  | ok am =>
  simp only [ha] at hok
  cases hl : loadM env.loadavg_raw env.cpuinfo_raw with
  | error e => simp only [hl] at hok; exact Except.noConfusion hok
  | ok ld =>
  simp only [hl] at hok
  simp only [Except.ok.injEq, Prod.mk.injEq] at hok
  exact ⟨r, t, up, am, ld, rfl, rfl, h1, h2, rfl, rfl, rfl, hok.1.symm, hok.2.symm⟩

/-- Converse direction: assembling a refresh result from successful
readings. -/
theorem refreshM_ok_build (s : SysInfo) (env : Env) (r t up am ld : Nat)
    (hr : netStats env.rx_raw = Except.ok r)
    (ht : netStats env.tx_raw = Except.ok t)
    (h1 : s.last_seen_net_rx ≤ r)
    (h2 : s.last_seen_net_tx ≤ t)
    (hu : uptimeM env.uptime_raw = Except.ok up)
    (ha : availMemM env.meminfo_raw = Except.ok am)
    (hl : loadM env.loadavg_raw env.cpuinfo_raw = Except.ok ld) :
    refreshM s env = Except.ok
      ({ s with
          net_rx := r - s.last_seen_net_rx, net_tx := t - s.last_seen_net_tx,
          last_seen_net_rx := r, last_seen_net_tx := t,
          uptime := up, avail_mem := am, load := ld,
          disk_free := (diskFreeM env.statvfs_res).1 },
        (diskFreeM env.statvfs_res).2) := by
  unfold refreshM
  simp [hr, ht, hu, ha, hl, checkedSub, h1, h2]

/-! ## Claims -/

/-- Claim C1: one call to `refresh` sets the rx delta to (currently read
rx counter minus stored rx baseline) and the tx delta likewise, and then
stores the newly read counter values as the new baselines. -/
theorem refresh_sets_deltas_and_baselines
    (s : SysInfo) (env : Env) (s1 : SysInfo) (l1 : List String) (r t : Nat)
    (hr : netStats env.rx_raw = Except.ok r) (ht : netStats env.tx_raw = Except.ok t)
    (hok : refreshM s env = Except.ok (s1, l1)) :
    s1.net_rx = r - s.last_seen_net_rx ∧ s1.net_tx = t - s.last_seen_net_tx ∧
    s1.last_seen_net_rx = r ∧ s1.last_seen_net_tx = t := by
  obtain ⟨r', t', up, am, ld, hr', ht', h1, h2, hu, ha, hl, hs1, hl1⟩ :=
    refreshM_ok_inv s env s1 l1 hok
  have hrr : r' = r := Except.ok.inj (hr'.symm.trans hr)
  have htt : t' = t := Except.ok.inj (ht'.symm.trans ht)
  subst hrr htt hs1
  simp

/-- Witness for C1 at the claim's example: baseline rx = 100, newly
observed rx = 150, so the delta is 50 and the stored baseline becomes
150. -/
theorem refresh_sets_deltas_and_baselines_witness :
    (s100r.net_rx = 150 - s100.last_seen_net_rx ∧
     s100r.net_tx = 160 - s100.last_seen_net_tx ∧
     s100r.last_seen_net_rx = 150 ∧ s100r.last_seen_net_tx = 160) ∧
    s100.last_seen_net_rx = 100 ∧ s100r.net_rx = 50 :=
  ⟨refresh_sets_deltas_and_baselines s100 envGood s100r [] 150 160
      (by decide) (by decide) (by decide),
   by decide, by decide⟩

/-- Claim C2: two consecutive refresh calls whose underlying counter
readings agree produce rx delta = 0 and tx delta = 0 on the second call
(consecutive deltas cover disjoint windows, the baseline having been
updated by the first call). -/
theorem second_refresh_zero_delta
    (s : SysInfo) (env1 env2 : Env) (s1 s2 : SysInfo) (l1 l2 : List String)
    (hrx : netStats env2.rx_raw = netStats env1.rx_raw)
    (htx : netStats env2.tx_raw = netStats env1.tx_raw)
    (hfst : refreshM s env1 = Except.ok (s1, l1))
    (hsnd : refreshM s1 env2 = Except.ok (s2, l2)) :
    s2.net_rx = 0 ∧ s2.net_tx = 0 := by
  obtain ⟨r, t, up, am, ld, hr1, ht1, _, _, _, _, _, hs1, _⟩ :=
    refreshM_ok_inv s env1 s1 l1 hfst
  obtain ⟨r2, t2, up2, am2, ld2, hr2, ht2, _, _, _, _, _, hs2, _⟩ :=
    refreshM_ok_inv s1 env2 s2 l2 hsnd
  have er : r2 = r := Except.ok.inj (hr2.symm.trans (hrx.trans hr1))
  have et : t2 = t := Except.ok.inj (ht2.symm.trans (htx.trans ht1))
  have hbr : s1.last_seen_net_rx = r := by rw [hs1]
  have hbt : s1.last_seen_net_tx = t := by rw [hs1]
  subst er et hs2
  simp [hbr, hbt]

/-- The snapshot after refreshing `s100r` against the unchanged
`envGood` readings: both deltas drop to zero. -/
def s100r2 : SysInfo := { s100r with net_rx := 0, net_tx := 0 }

/-- Witness for C2: a concrete pair of consecutive refreshes against
identical counter readings; the second yields zero deltas. -/
theorem second_refresh_zero_delta_witness :
    s100r2.net_rx = 0 ∧ s100r2.net_tx = 0 :=
  second_refresh_zero_delta s100 envGood envGood s100r s100r2 [] [] rfl rfl
    (by decide) (by decide)

/-- Claim C10: the delta computation subtracts the stored baseline from
the new `u64` reading with no guard in the source; when the new reading
is at least the baseline the subtraction succeeds and the overflow branch
is unreachable, and when the counter decreased the refresh aborts
(partiality). -/
theorem delta_subtraction_unguarded :
    (∀ a b : Nat, b ≤ a → checkedSub a b = Except.ok (a - b)) ∧
    (∀ a b : Nat, a < b →
      checkedSub a b = Except.error ("attempt to subtract with overflow")) ∧
    (∀ (s : SysInfo) (env : Env) (r : Nat),
      netStats env.rx_raw = Except.ok r → r < s.last_seen_net_rx →
      ∃ e, refreshM s env = Except.error e) := by
  refine ⟨fun a b h => by simp [checkedSub, h],
          fun a b h => by simp [checkedSub, Nat.not_le.mpr h], ?_⟩
  intro s env r hr hlt
  unfold refreshM
  cases ht : netStats env.tx_raw with
  | error e => exact ⟨e, by simp [hr, ht]⟩
  | ok t =>
    exact ⟨"attempt to subtract with overflow",
      by simp [hr, ht, checkedSub, Nat.not_le.mpr hlt]⟩

/-- Witness for C10: 150 − 100 succeeds with 50; 100 − 150 hits the
overflow abort; a refresh whose rx counter reads 50 below the stored
baseline 100 aborts. -/
theorem delta_subtraction_unguarded_witness :
    checkedSub 150 100 = Except.ok 50 ∧
    checkedSub 100 150 = Except.error ("attempt to subtract with overflow") ∧
    (∃ e, refreshM s100 { envGood with rx_raw := Except.ok "50" } = Except.error e) :=
  ⟨delta_subtraction_unguarded.1 150 100 (by decide),
   delta_subtraction_unguarded.2.1 100 150 (by decide),
   delta_subtraction_unguarded.2.2 s100 { envGood with rx_raw := Except.ok "50" } 50
     (by decide) (by decide)⟩

/-- Claim C3: `serialize` produces exactly six newline-terminated lines,
one per metric, each of the form `<namespace>.<hostname>.<name>:<value>|g`
with gauge marker `g`, the names fixed and in the fixed order net-rx,
net-tx, uptime, availmem, diskfree, load; and the output depends only on
the snapshot's namespace, hostname and six metric fields (identical
values give identical output). -/
theorem serialize_six_gauge_lines (s : SysInfo) :
    serialize s =
      String.join ((metricNames.zip (metricValues s)).map
        (fun p => statsdLine (s.nspace ++ "." ++ s.hostname) p.1 p.2 ++ "\n")) ∧
    metricNames = ["net-rx", "net-tx", "uptime", "availmem", "diskfree", "load"] ∧
    (metricNames.zip (metricValues s)).length = 6 ∧
    (∀ t : SysInfo, s.nspace = t.nspace → s.hostname = t.hostname →
      s.net_rx = t.net_rx → s.net_tx = t.net_tx → s.uptime = t.uptime →
      s.avail_mem = t.avail_mem → s.disk_free = t.disk_free → s.load = t.load →
      serialize s = serialize t) := by
  refine ⟨?_, rfl, rfl, ?_⟩
  · have hm : ∀ m x : String, "." ++ (m ++ (":" ++ x)) = "." ++ m ++ ":" ++ x :=
      fun m x => by rw [String.append_assoc, String.append_assoc]
    simp [serialize, metricNames, metricValues, statsdLine, String.join,
      String.append_assoc]
    simp only [hm]
    simp
  · intro t h1 h2 h3 h4 h5 h6 h7 h8
    simp only [serialize, h1, h2, h3, h4, h5, h6, h7, h8]

/-- A snapshot agreeing with `s100r` on every field `serialize` reads but
differing elsewhere (destination, filesystem, baselines). -/
def s100alt : SysInfo :=
  { s100r with
    destination := "other-collector"
    filesystem := "/var"
    last_seen_net_rx := 7
    last_seen_net_tx := 9 }

/-- Witness for C3: the six-line count at a concrete snapshot, and
determinism — `s100r` and `s100alt` share the encoded fields, so their
payloads coincide. -/
theorem serialize_six_gauge_lines_witness :
    (metricNames.zip (metricValues s100r)).length = 6 ∧
    serialize s100r = serialize s100alt :=
  ⟨(serialize_six_gauge_lines s100r).2.2.1,
   (serialize_six_gauge_lines s100r).2.2.2 s100alt rfl rfl rfl rfl rfl rfl rfl rfl⟩

/-- Claim C4: for every memory reading with total > 0 the
available-memory metric is round(available / total × 100); at total =
1000 and available = 200 it is 20 (also checked through the full
`/proc/meminfo` parsing path). -/
theorem avail_mem_pct_round :
    (∀ total avail : Nat, 0 < total →
      (availMemCalc (total, 1) (avail, 1) : ℤ) =
        round ((avail : ℚ) / (total : ℚ) * 100)) ∧
    availMemCalc (1000, 1) (200, 1) = 20 ∧
    availMemM (Except.ok "MemTotal:       1000 kB\nMemAvailable:    200 kB\n") =
      Except.ok 20 := by
  refine ⟨?_, by decide, by decide⟩
  intro total avail ht
  have h0 : 0 < 1 * total := by omega
  have h := roundHalfUp_eq (avail * 1 * 100) (1 * total) h0
  dsimp only [availMemCalc]
  rw [h]
  congr 1
  push_cast
  ring

/-- Witness for C4 at the claim's example: total = 1000, available =
200. -/
theorem avail_mem_pct_round_witness :
    (availMemCalc (1000, 1) (200, 1) : ℤ) =
      round (((200 : ℕ) : ℚ) / ((1000 : ℕ) : ℚ) * 100) ∧
    availMemCalc (1000, 1) (200, 1) = 20 :=
  ⟨avail_mem_pct_round.1 1000 200 (by norm_num), avail_mem_pct_round.2.1⟩

/-- Claim C5: for every load-average reading (a parsed decimal
`nl / dl`) and core count > 0 the scaled-load metric is
round(load × 100 / cores); at load 1.0 on 4 cores it is 25 (also checked
through the full `/proc/loadavg` and `/proc/cpuinfo` parsing path). -/
theorem load_scaled_round :
    (∀ nl dl cores : Nat, 0 < dl → 0 < cores →
      (loadCalc (nl, dl) cores : ℤ) =
        round ((nl : ℚ) / (dl : ℚ) * 100 / (cores : ℚ))) ∧
    loadCalc (10, 10) 4 = 25 ∧
    loadM (Except.ok "1.00 0.50 0.25 1/100 12345\n")
      (Except.ok "processor\t: 0\nprocessor\t: 1\nprocessor\t: 2\nprocessor\t: 3\n") =
      Except.ok 25 := by
  refine ⟨?_, by decide, by decide⟩
  intro nl dl cores hd hc
  have h0 : 0 < dl * cores := Nat.mul_pos hd hc
  have h := roundHalfUp_eq (nl * 100) (dl * cores) h0
  dsimp only [loadCalc]
  rw [h]
  congr 1
  push_cast
  rw [div_mul_eq_mul_div, div_div]

/-- Witness for C5 at the claim's example: load average 1.0 (parsed as
10/10), 4 cores. -/
theorem load_scaled_round_witness :
    (loadCalc (10, 10) 4 : ℤ) =
      round (((10 : ℕ) : ℚ) / ((10 : ℕ) : ℚ) * 100 / ((4 : ℕ) : ℚ)) ∧
    loadCalc (10, 10) 4 = 25 :=
  ⟨load_scaled_round.1 10 10 4 (by norm_num) (by norm_num),
   load_scaled_round.2.1⟩

/-- Claim C6: when the `statvfs` call fails (nonzero result `c`), the
sampling cycle does not abort: the free-disk metric becomes 0, the
diagnostic line is printed, and encoding and sending still happen — the
payload sent is the serialization of the refreshed snapshot, which agrees
with the healthy-disk refresh on the other five metrics. -/
theorem disk_failure_nonfatal
    (s : SysInfo) (env : Env) (c : Int) (st : Stat) (s1 : SysInfo) (l1 : List String)
    (hok : refreshM s { env with statvfs_res := Except.ok st } = Except.ok (s1, l1)) :
    sendCycle s { env with statvfs_res := Except.error c } (Except.ok ()) (Except.ok ()) =
      Except.ok ({ s1 with disk_free := 0 }, [diskDiag c],
        serialize { s1 with disk_free := 0 }) := by
  obtain ⟨r, t, up, am, ld, hr, ht, h1, h2, hu, ha, hl, hs1, hl1⟩ :=
    refreshM_ok_inv s _ s1 l1 hok
  have hb := refreshM_ok_build s { env with statvfs_res := Except.error c }
    r t up am ld hr ht h1 h2 hu ha hl
  unfold sendCycle
  rw [hb]
  subst hs1
  simp [diskFreeM]

/-- Witness for C6: a concrete failing `statvfs` (result −1) alongside
the healthy run `refreshM s100 envGood`; the cycle still sends, with
diskfree 0 and the diagnostic printed. -/
theorem disk_failure_nonfatal_witness :
    sendCycle s100 { envGood with statvfs_res := Except.error (-1) }
      (Except.ok ()) (Except.ok ()) =
      Except.ok ({ s100r with disk_free := 0 }, [diskDiag (-1)],
        serialize { s100r with disk_free := 0 }) ∧
    diskDiag (-1) = "Cannot access filesystem stats, errno -1" :=
  ⟨disk_failure_nonfatal s100 envGood (-1) { f_bavail := 50, f_blocks := 200 }
      s100r [] (by decide), by decide⟩

/-- A snapshot with zero baselines (the state right after a fresh
interface would report zero counters). -/
def sZero : SysInfo := { s100 with last_seen_net_rx := 0, last_seen_net_tx := 0 }

/-- Counterexample to claim C7 as stated: the network-counter source
content "garbage" is unparseable, yet `net_stats` substitutes 0
(`unwrap_or(0)`) and the sampling operation completes instead of
terminating. -/
theorem unparseable_net_counter_not_fatal :
    parseU64C (trimC ("garbage".data)) = none ∧
    netStats (Except.ok "garbage") = Except.ok 0 ∧
    (refreshM sZero { envGood with rx_raw := Except.ok "garbage" }).isOk = true := by
  refine ⟨by decide, by decide, by decide⟩

/-- Claim C7 (amended): an unreadable metric source — hostname, network
counters, uptime, memory info, load average, core count — terminates the
process with a descriptive message, as does a UDP send failure; an
unparseable load average also terminates, and so does unparseable memory
info (a candidate line whose value does not parse, or fewer than two
candidate lines, hitting the `unwrap` and the `candidates[1]` indexing);
but unparseable network-counter or uptime contents are silently replaced
by 0 and sampling continues. -/
theorem fatal_and_nonfatal_error_policy :
    hostnameM (Except.error ()) = Except.error ("Unable to read hostname") ∧
    netStats (Except.error ()) =
      Except.error ("Unable to read statistics from provided network interface") ∧
    uptimeM (Except.error ()) = Except.error ("Unable to read /proc/uptime") ∧
    availMemM (Except.error ()) = Except.error ("Unable to read /proc/meminfo") ∧
    (∀ c, ((splitOnC '\n' c.data).filter
        (fun l => startsWithL l ("MemTotal".data) ||
          startsWithL l ("MemAvailable".data))).mapM memLineVal = none →
      availMemM (Except.ok c) =
        Except.error ("called unwrap on an Err value while parsing /proc/meminfo")) ∧
    (∀ c vals, ((splitOnC '\n' c.data).filter
        (fun l => startsWithL l ("MemTotal".data) ||
          startsWithL l ("MemAvailable".data))).mapM memLineVal = some vals →
      vals.length ≤ 1 →
      availMemM (Except.ok c) =
        Except.error ("index out of bounds in /proc/meminfo candidates")) ∧
    (∀ cpu, loadM (Except.error ()) cpu =
      Except.error ("Unable to read /proc/loadavg")) ∧
    (∀ lc la, parseDecC ((splitOnC ' ' (trimC lc.data)).headD []) = some la →
      loadM (Except.ok lc) (Except.error ()) =
        Except.error ("Unable to read /proc/cpuinfo")) ∧
    (∀ lc cpu, parseDecC ((splitOnC ' ' (trimC lc.data)).headD []) = none →
      loadM (Except.ok lc) cpu =
        Except.error ("called unwrap on an Err value while parsing /proc/loadavg")) ∧
    (∀ (s : SysInfo) (env : Env), env.rx_raw = Except.error () →
      refreshM s env =
        Except.error ("Unable to read statistics from provided network interface")) ∧
    (∀ (s : SysInfo) (env : Env) (s1 : SysInfo) (l1 : List String),
      refreshM s env = Except.ok (s1, l1) →
      sendCycle s env (Except.ok ()) (Except.error ()) =
        Except.error ("could not send data")) ∧
    (∀ c, parseU64C (trimC c.data) = none → netStats (Except.ok c) = Except.ok 0) ∧
    (∀ c, parseDecC ((splitOnC ' ' (trimC c.data)).headD ("0.0".data)) = none →
      uptimeM (Except.ok c) = Except.ok 0) := by
  refine ⟨rfl, rfl, rfl, rfl, ?_, ?_, fun cpu => rfl, ?_, ?_, ?_, ?_, ?_, ?_⟩
  · intro c h
    simp only [availMemM]
    rw [h]
  · intro c vals h hlen
    simp only [availMemM]
    rw [h]
    cases vals with
    | nil => rfl
    | cons a t =>
      cases t with
      | nil => rfl
      | cons b t2 =>
        exfalso
        simp only [List.length_cons] at hlen
        omega
  · intro lc la h
    simp only [loadM]
    rw [h]
  · intro lc cpu h
    simp only [loadM]
    rw [h]
  · intro s env h
    simp [refreshM, h, netStats]
  · intro s env s1 l1 h
    simp [sendCycle, h]
  · intro c h
    simp [netStats, h]
  · intro c h
    simp only [uptimeM]
    rw [h]
    rfl

/-- Witness for C7's amended statement: each conditional branch at a
concrete input — a meminfo candidate line whose value does not parse, a
meminfo with no candidate lines at all, load-average read and parse
faults, cpuinfo read fault, a counter read fault propagating out of
refresh, a send fault after a good refresh, and the two silent zero
substitutions. -/
theorem fatal_and_nonfatal_error_policy_witness :
    availMemM (Except.ok "MemTotal: garbage kB\nMemAvailable: 200 kB") =
      Except.error ("called unwrap on an Err value while parsing /proc/meminfo") ∧
    availMemM (Except.ok "MemFree: 100 kB") =
      Except.error ("index out of bounds in /proc/meminfo candidates") ∧
    loadM (Except.error ()) (Except.ok "") =
      Except.error ("Unable to read /proc/loadavg") ∧
    loadM (Except.ok "1.00 1 1") (Except.error ()) =
      Except.error ("Unable to read /proc/cpuinfo") ∧
    loadM (Except.ok "garbage") (Except.ok "") =
      Except.error ("called unwrap on an Err value while parsing /proc/loadavg") ∧
    refreshM s100 { envGood with rx_raw := Except.error () } =
      Except.error ("Unable to read statistics from provided network interface") ∧
    sendCycle s100 envGood (Except.ok ()) (Except.error ()) =
      Except.error ("could not send data") ∧
    netStats (Except.ok "garbage") = Except.ok 0 ∧
    uptimeM (Except.ok "garbage") = Except.ok 0 := by
  obtain ⟨-, -, -, -, h5, h6, h7, h8, h9, h10, h11, h12, h13⟩ :=
    fatal_and_nonfatal_error_policy
  exact ⟨h5 "MemTotal: garbage kB\nMemAvailable: 200 kB" (by decide),
    h6 "MemFree: 100 kB" [] (by decide) (by decide),
    h7 (Except.ok ""),
    h8 "1.00 1 1" (100, 100) (by decide),
    h9 "garbage" (Except.ok "") (by decide),
    h10 s100 { envGood with rx_raw := Except.error () } rfl,
    h11 s100 envGood s100r [] (by decide),
    h12 "garbage" (by decide),
    h13 "garbage" (by decide)⟩

/-- Claim C8: started with a wrong number of positional parameters
(`argv.len() != 5`, program name included), the program prints the usage
text to standard output and exits with status 1; no metric source is
consulted (`mainStartup` takes no `Env`). -/
theorem wrong_arg_count_usage_exit (argv : List String) (h : argv.length ≠ 5) :
    mainStartup argv = Except.error (usageOutput, 1) := by
  unfold mainStartup
  rw [dif_neg h]

/-- Witness for C8: no positional parameters at all. -/
theorem wrong_arg_count_usage_exit_witness :
    mainStartup ["uptimed"] = Except.error (usageOutput, 1) ∧
    (["uptimed"] : List String).length ≠ 5 :=
  ⟨wrong_arg_count_usage_exit ["uptimed"] (by decide), by decide⟩

/-- Claim C9: the scheduler alternates Sampling → Waiting → Sampling
forever — every state has a successor, two steps return to the start, so
there is no terminal state — and the wait after sampling is the constant
60 seconds, independent of the sampling latency. -/
theorem scheduler_alternates_fixed_delay :
    (∀ p : Phase, ∃ q : Phase, nextPhase p = q ∧ q ≠ p) ∧
    nextPhase Phase.sampling = Phase.waiting ∧
    nextPhase Phase.waiting = Phase.sampling ∧
    (∀ p : Phase, nextPhase (nextPhase p) = p) ∧
    (∀ (n : Nat) (p : Phase), Nat.iterate nextPhase (2 * n) p = p) ∧
    (∀ lat : Nat, sleepSecs lat = 60) := by
  refine ⟨fun p => ⟨nextPhase p, rfl, by cases p <;> decide⟩, rfl, rfl,
    fun p => by cases p <;> rfl, ?_, fun _ => rfl⟩
  intro n
  induction n with
  | zero => intro p; rfl
  | succ m ih =>
    intro p
    have h2 : 2 * (m + 1) = 2 * m + 2 := by ring
    have hp : Nat.iterate nextPhase 2 p = p := by cases p <;> rfl
    rw [h2, Function.iterate_add_apply, hp]
    exact ih p
